import Mathlib

/-!
A verification development for the incremental-synchronization pipeline of the
opensearch-streaming-search repository (Go).  The Go sources are shallowly
embedded: pure record types and validity predicates become Lean structures and
Bool-valued functions; the network, the Redis cache value, the Postgres store
and the Kafka bus become explicit oracles / state values; goroutine fan-out is
determinized as a left fold in frontier order (every unit of work in the source
runs to completion and only appends to its own class's collection under a
mutex, so the aggregate is order-insensitive up to list order).
-/

namespace HN

/-! ## Record variants (internal/models)

Go declares each variant as a struct with json tags; the discriminant field is
named `Type` in Go, rendered `Type'` here because `Type` is a Lean keyword. -/

/-- Embeds models.Story (internal/models/story.go). -/
structure Story where
  ID : Int
  Type' : String
  Title : String
  URL : String
  Score : Int
  Author : String
  Created_At : Int
  Comments_count : Int
deriving DecidableEq

/-- Embeds Story.IsValid: `s.ID > 0 && s.Type == "Story" && s.Title != "" &&
s.Author != "" && s.Created_At > 0`. -/
def Story.IsValid (s : Story) : Bool :=
  decide (s.ID > 0) && s.Type' == "Story" && s.Title != "" && s.Author != "" &&
    decide (s.Created_At > 0)

/-- Embeds models.Ask (snapshot file without a recorded name). -/
structure Ask where
  ID : Int
  Type' : String
  Title : String
  Text : String
  Score : Int
  Author : String
  Reply_ids : List Int
  Replies_count : Int
  Created_At : Int
deriving DecidableEq

/-- Embeds Ask.IsValid: `a.ID > 0 && a.Type == "Ask" && a.Title != "" &&
a.Author != "" && a.Created_At > 0`. -/
def Ask.IsValid (a : Ask) : Bool :=
  decide (a.ID > 0) && a.Type' == "Ask" && a.Title != "" && a.Author != "" &&
    decide (a.Created_At > 0)

/-- Embeds models.Job (internal/models/job.go). -/
structure Job where
  ID : Int
  Type' : String
  Title : String
  Text : String
  URL : String
  Score : Int
  Author : String
  Created_At : Int
deriving DecidableEq

/-- Embeds Job.IsValid: `j.ID > 0 && j.Type == "Job" && j.Title != "" &&
j.Author != "" && j.Created_At > 0`. -/
def Job.IsValid (j : Job) : Bool :=
  decide (j.ID > 0) && j.Type' == "Job" && j.Title != "" && j.Author != "" &&
    decide (j.Created_At > 0)

/-- Embeds models.Comment (internal/models/comment.go). -/
structure Comment where
  ID : Int
  Type' : String
  Text : String
  Author : String
  Parent : Int
  Replies : List Int
  Created_At : Int
deriving DecidableEq

/-- Embeds Comment.IsValid: `c.ID > 0 && c.Type == "Comment" && c.Text != "" &&
c.Author != "" && c.Created_At > 0`. -/
def Comment.IsValid (c : Comment) : Bool :=
  decide (c.ID > 0) && c.Type' == "Comment" && c.Text != "" && c.Author != "" &&
    decide (c.Created_At > 0)

/-- Embeds models.Poll as declared in internal/models/poll.go.  (The snapshot
also carries an older Poll variant, with tag "poll", in another file; the
named models file is taken as the authority.) -/
structure Poll where
  ID : Int
  Type' : String
  Title : String
  Score : Int
  Author : String
  Created_At : Int
  Comment_count : String
  Reply_Ids : List Int
  Parts : List Int
deriving DecidableEq

/-- Embeds Poll.IsValid: `p.ID > 0 && p.Type == "Poll" && p.Title != "" &&
p.Author != "" && p.Created_At > 0`. -/
def Poll.IsValid (p : Poll) : Bool :=
  decide (p.ID > 0) && p.Type' == "Poll" && p.Title != "" && p.Author != "" &&
    decide (p.Created_At > 0)

/-- Embeds models.PollOption (internal/models/pollOption.go). -/
structure PollOption where
  ID : Int
  Type' : String
  PollID : Int
  Author : String
  OptionText : String
  CreatedAt : Int
  Votes : Int
deriving DecidableEq

/-- Embeds PollOption.IsValid: `po.ID > 0 && po.Type == "PollOption" &&
po.PollID > 0 && po.OptionText != "" && po.CreatedAt > 0`.  Note the source
checks `PollID` and does not check `Author`. -/
def PollOption.IsValid (po : PollOption) : Bool :=
  decide (po.ID > 0) && po.Type' == "PollOption" && decide (po.PollID > 0) &&
    po.OptionText != "" && decide (po.CreatedAt > 0)

/-- Embeds models.User (internal/models/user.go). -/
structure User where
  ID : Int
  Username : String
  Karma : Int
  About : String
  Created_At : Int
  Submitted : List Int
deriving DecidableEq

/-- Embeds User.IsValid: `u.Username != "" && u.About != "" && u.Karma >= 0 &&
u.Created_At > 0`. -/
def User.IsValid (u : User) : Bool :=
  u.Username != "" && u.About != "" && decide (u.Karma ≥ 0) &&
    decide (u.Created_At > 0)

/-- Embeds models.Update: the frontier pair decoded from /updates.json. -/
structure Update where
  IDs : List Int
  Profiles : List String
deriving DecidableEq

/-! ## Validity conditions as the specification states them (for claim C6)

These predicates follow the wording of spec section 3 — identifier positive,
discriminant tag equal to the variant's lowercase wire tag, author non-empty,
creation timestamp positive, mandatory text field non-empty — so that they can
be compared with the IsValid functions embedded from the source. -/

/-- Spec section 3 validity for Story, with the wire tag "story". -/
def specValidStory (s : Story) : Bool :=
  decide (s.ID > 0) && s.Type' == "story" && s.Author != "" &&
    decide (s.Created_At > 0) && s.Title != ""

/-- Spec section 3 validity for PollOption, with the wire tag "pollopt"; the
spec requires a non-empty author for every variant. -/
def specValidPollOption (po : PollOption) : Bool :=
  decide (po.ID > 0) && po.Type' == "pollopt" && po.Author != "" &&
    decide (po.CreatedAt > 0) && po.OptionText != ""

/-- A PollOption meeting every spec-side condition (lowercase tag "pollopt",
non-empty author). -/
def c6PollOption : PollOption :=
  { ID := 1, Type' := "pollopt", PollID := 1, Author := "a", OptionText := "t",
    CreatedAt := 1, Votes := 0 }

/-- A Story meeting every spec-side condition (lowercase tag "story"). -/
def c6Story : Story :=
  { ID := 1, Type' := "story", Title := "X", URL := "", Score := 0,
    Author := "a", Created_At := 1, Comments_count := 0 }

/-- Claim C6, counterexample: records that satisfy all the section-3 conditions
of the claim (identifier positive, lowercase variant tag, non-empty author,
positive timestamp, non-empty text field) are rejected by the source IsValid
functions, which compare the tag against the capitalized Go type name — and
for PollOption the source never checks the author at all. -/
theorem c6_counterexample :
    specValidStory c6Story = true ∧ Story.IsValid c6Story = false ∧
    specValidPollOption c6PollOption = true ∧
    PollOption.IsValid c6PollOption = false := by
  decide

/-- The validity conditions the source actually implements for Story. -/
def amendedValidStory (s : Story) : Prop :=
  s.ID > 0 ∧ s.Type' = "Story" ∧ s.Title ≠ "" ∧ s.Author ≠ "" ∧ s.Created_At > 0

/-- The validity conditions the source actually implements for Ask. -/
def amendedValidAsk (a : Ask) : Prop :=
  a.ID > 0 ∧ a.Type' = "Ask" ∧ a.Title ≠ "" ∧ a.Author ≠ "" ∧ a.Created_At > 0

/-- The validity conditions the source actually implements for Job. -/
def amendedValidJob (j : Job) : Prop :=
  j.ID > 0 ∧ j.Type' = "Job" ∧ j.Title ≠ "" ∧ j.Author ≠ "" ∧ j.Created_At > 0

/-- The validity conditions the source actually implements for Comment. -/
def amendedValidComment (c : Comment) : Prop :=
  c.ID > 0 ∧ c.Type' = "Comment" ∧ c.Text ≠ "" ∧ c.Author ≠ "" ∧ c.Created_At > 0

/-- The validity conditions the source actually implements for Poll. -/
def amendedValidPoll (p : Poll) : Prop :=
  p.ID > 0 ∧ p.Type' = "Poll" ∧ p.Title ≠ "" ∧ p.Author ≠ "" ∧ p.Created_At > 0

/-- The validity conditions the source actually implements for PollOption:
poll-id positive instead of a non-empty author. -/
def amendedValidPollOption (po : PollOption) : Prop :=
  po.ID > 0 ∧ po.Type' = "PollOption" ∧ po.PollID > 0 ∧ po.OptionText ≠ "" ∧
    po.CreatedAt > 0

/-- Claim C6, amended: for every record variant, IsValid returns true iff the
identifier is positive, the discriminant tag equals the capitalized Go type
name ("Story", "Ask", "Job", "Comment", "Poll", "PollOption"), the variant's
mandatory text field is non-empty, and the creation timestamp is positive;
every variant except PollOption additionally requires a non-empty author,
while PollOption instead requires a positive poll-id. -/
theorem c6_isValid_characterization :
    (∀ s : Story, Story.IsValid s = true ↔ amendedValidStory s) ∧
    (∀ a : Ask, Ask.IsValid a = true ↔ amendedValidAsk a) ∧
    (∀ j : Job, Job.IsValid j = true ↔ amendedValidJob j) ∧
    (∀ c : Comment, Comment.IsValid c = true ↔ amendedValidComment c) ∧
    (∀ p : Poll, Poll.IsValid p = true ↔ amendedValidPoll p) ∧
    (∀ po : PollOption,
        PollOption.IsValid po = true ↔ amendedValidPollOption po) := by
  refine ⟨?_, ?_, ?_, ?_, ?_, ?_⟩ <;> intro x <;>
    simp [Story.IsValid, Ask.IsValid, Job.IsValid, Comment.IsValid,
      Poll.IsValid, PollOption.IsValid, amendedValidStory, amendedValidAsk,
      amendedValidJob, amendedValidComment, amendedValidPoll,
      amendedValidPollOption, and_assoc]

/-! ## Dedup cache (internal/redis)

The Redis key's state is modeled directly: `none` means the key does not
exist (the go-redis `redis.Nil` reply), `some .malformed` a value that
json.Unmarshal cannot decode as a list, `some (.decoded ids)` a decodable
value.  Connection-level Redis errors are outside the claims and not modeled. -/

/-- The decoded state of one Redis key. -/
inductive CacheVal (α : Type) where
  | decoded (ids : List α)
  | malformed
deriving DecidableEq

/-- Embeds redis.IsItemInCache (internal/redis/redisConfig.go): a missing key
returns (false, nil); an undecodable value returns an unmarshal error;
otherwise the decoded id list is scanned for targetID. -/
def IsItemInCache (stored : Option (CacheVal Int)) (targetID : Int) :
    Except String Bool :=
  match stored with
  | none => .ok false
  | some .malformed => .error ("failed to unmarshal IDs")
  | some (.decoded ids) => .ok (ids.contains targetID)

/-- Embeds redis.IsUserIDInCache (internal/redis/redisConfig.go), the string
twin of IsItemInCache. -/
def IsUserIDInCache (stored : Option (CacheVal String)) (targetID : String) :
    Except String Bool :=
  match stored with
  | none => .ok false
  | some .malformed => .error ("failed to unmarshal IDs")
  | some (.decoded ids) => .ok (ids.contains targetID)

/-- Embeds redis.CacheID (internal/redis/redisSet.go): `rdb.Set` stores the
JSON of exactly the new batch under the key; the previous value is neither
read nor merged, so it is overwritten. -/
def CacheID (_stored : Option (CacheVal Int)) (ids : List Int) :
    Option (CacheVal Int) :=
  some (.decoded ids)

/-- Embeds redis.CacheUserIDs (internal/redis/redisSet.go), the string twin of
CacheID; it likewise overwrites the key with the new batch. -/
def CacheUserIDs (_stored : Option (CacheVal String)) (ids : List String) :
    Option (CacheVal String) :=
  some (.decoded ids)

deriving instance DecidableEq for Except

/-- Claim C3: marking a batch does not preserve earlier marks.  With id 1
already cached under the items key, caching the batch [2] overwrites the key
with [2]: id 2 now tests as cached, but id 1 — cached before the mark — no
longer does.  Membership is not monotone. -/
theorem c3_cacheID_overwrites :
    IsItemInCache (some (.decoded [1])) 1 = .ok true ∧
    CacheID (some (.decoded [1])) [2] = some (.decoded [2]) ∧
    IsItemInCache (CacheID (some (.decoded [1])) [2]) 1 = .ok false ∧
    IsItemInCache (CacheID (some (.decoded [1])) [2]) 2 = .ok true := by
  decide

/-- Claim C9: when the cache key does not yet exist, both membership checks
return (false, nil) for every queried id, so a cold cache never blocks the
first cycle. -/
theorem c9_missing_key_is_miss :
    ∀ (id : Int) (uid : String),
      IsItemInCache none id = .ok false ∧
      IsUserIDInCache none uid = .ok false := by
  intro id uid
  exact ⟨rfl, rfl⟩

/-! ## HTTP client and frontier fetch (internal/services)

`HackerNewsApiClient.Get` is embedded over an oracle response: `none` models a
transport failure, `some r` a reply with status code and body.  The decode
target distinguishes a pointer target (with its decoding function) from a
value target, because encoding/json rejects a non-pointer target with
InvalidUnmarshalError before looking at the body — and
`UpdateApiService.FetchUpdates` passes `update` by value, not `&update`. -/

/-- An HTTP reply from the source API. -/
structure Response where
  status : Nat
  body : String
deriving DecidableEq

/-- The decode target handed to json.Decode: a pointer with its decoding
function, or a non-pointer value. -/
inductive Target (α : Type) where
  | ptr (decode : String → Option α)
  | value

/-- Embeds HackerNewsApiClient.Get (internal/services, client file): transport
failure and non-200 status are errors; otherwise the body is decoded into the
target.  Per encoding/json, a non-pointer target fails before the body is
read. -/
def HackerNewsApiClient.Get {α : Type} (resp : Option Response)
    (result : Target α) : Except String α :=
  match resp with
  | none => .error ("failed to perform request")
  | some r =>
    if r.status ≠ 200 then
      .error ("API request failed with status " ++ toString r.status)
    else
      match result with
      | .value => .error ("json: Unmarshal(non-pointer)")
      | .ptr decode =>
        match decode r.body with
        | none => .error ("failed to decode response")
        | some a => .ok a

/-- Embeds UpdateApiService.FetchUpdates (internal/services/commentService.go
snapshot): it calls `s.Client.Get(ctx, "/updates.json", update)` — the Update
struct is passed by value, so the decode target is a non-pointer. -/
def UpdateApiService.FetchUpdates (resp : Option Response) :
    Except String Update :=
  HackerNewsApiClient.Get resp Target.value

/-- Claim C1: FetchUpdates can never return a decoded frontier.  Because the
Update target is passed by value, every call returns an error — even for an
HTTP 200 reply whose body a pointer target would decode successfully. -/
theorem c1_fetchUpdates_never_decodes :
    (∀ (resp : Option Response) (u : Update),
        UpdateApiService.FetchUpdates resp ≠ .ok u) ∧
    (∀ (decode : String → Option Update) (body : String) (u : Update),
        decode body = some u →
          HackerNewsApiClient.Get (some ⟨200, body⟩) (Target.ptr decode) =
            .ok u ∧
          UpdateApiService.FetchUpdates (some ⟨200, body⟩) =
            .error ("json: Unmarshal(non-pointer)")) := by
  constructor
  · intro resp u h
    unfold UpdateApiService.FetchUpdates HackerNewsApiClient.Get at h
    match resp with
    | none => exact absurd h (by simp)
    | some r =>
      by_cases hs : r.status ≠ 200 <;> simp [hs] at h
  · intro decode body u h
    refine ⟨?_, rfl⟩
    simp [HackerNewsApiClient.Get, h]

/-- The frontier of the round-trip scenario: record ids [42], usernames
["alice"]. -/
def c1Frontier : Update := ⟨[42], ["alice"]⟩

/-- Claim C1, witness: a concrete 200 reply whose body decodes to the frontier
([42], ["alice"]) under a pointer target still makes FetchUpdates error. -/
theorem c1_fetchUpdates_never_decodes_witness :
    HackerNewsApiClient.Get (some ⟨200, "ok"⟩)
        (Target.ptr (fun _ => some c1Frontier)) = .ok c1Frontier ∧
    UpdateApiService.FetchUpdates (some ⟨200, "ok"⟩) =
      .error ("json: Unmarshal(non-pointer)") :=
  c1_fetchUpdates_never_decodes.2 (fun _ => some c1Frontier) ("ok")
    c1Frontier rfl

/-! ## Change publisher (internal/kafka/kafkaProducer.go)

The bus oracle answers whether dialing the topic leader, writing the message
batch, and closing the connection succeed.  The source calls `log.Fatal` —
which exits the process — on every failure path, so the producer's outcome is
either a nil return or a process exit; an error return is unreachable. -/

/-- The Kafka transport oracle for one call. -/
structure Bus where
  dial : String → Bool
  write : String → List String → Bool
  close : String → Bool

/-- Outcome of a producer call: nil return, error return, or process exit via
log.Fatal. -/
inductive ProdResult where
  | retOk
  | retErr (msg : String)
  | fatalExit
deriving DecidableEq

/-- Embeds kafka.NewItemProducer: dial the topic leader (log.Fatal on error),
write one message per id rendered in decimal (log.Fatal on error), close the
connection (log.Fatal on error), return nil. -/
def NewItemProducer (bus : Bus) (topic : String) (ids : List Int) :
    ProdResult :=
  if bus.dial topic then
    if bus.write topic (ids.map (fun id => toString id)) then
      if bus.close topic then .retOk else .fatalExit
    else .fatalExit
  else .fatalExit

/-- Embeds kafka.NewUserIDProducer: as NewItemProducer, with one message per
username. -/
def NewUserIDProducer (bus : Bus) (topic : String) (ids : List String) :
    ProdResult :=
  if bus.dial topic then
    if bus.write topic ids then
      if bus.close topic then .retOk else .fatalExit
    else .fatalExit
  else .fatalExit

/-- Claim C5: a failed publication terminates the process.  NewItemProducer
never returns an error — every failure path calls log.Fatal — and both a dial
failure and a write failure toward the bus end in a process exit, so the
orchestrator's publish-error branch is unreachable. -/
theorem c5_publish_failure_exits_process :
    (∀ (bus : Bus) (topic : String) (ids : List Int) (msg : String),
        NewItemProducer bus topic ids ≠ .retErr msg) ∧
    NewItemProducer ⟨fun _ => false, fun _ _ => true, fun _ => true⟩
        "StoriesTopic" [42] = .fatalExit ∧
    NewItemProducer ⟨fun _ => true, fun _ _ => false, fun _ => true⟩
        "StoriesTopic" [42] = .fatalExit := by
  refine ⟨?_, rfl, rfl⟩
  intro bus topic ids msg
  unfold NewItemProducer
  split
  · split
    · split <;> simp
    · simp
  · simp

/-! ## Concurrent multi-fetch (internal/services, FetchMultiple)

Story, Comment, Job and Ask services carry textually identical FetchMultiple
bodies: one goroutine per id writes `results[index]`, `errors[index]`; after
the barrier, entries with a nil error and a non-nil record are appended to the
output in index order, and the function returns a nil error unconditionally.
The per-id fetch is an oracle `Int → Except String α` (FetchByID returns a
record exactly when the client call returns no error). -/

/-- Embeds the shared FetchMultiple body over a per-id fetch oracle: the
results and errors arrays indexed like the input, then the nil-error non-nil
entries collected in order, returned with a nil error. -/
def fetchMultiple {α : Type} (fetch : Int → Except String α) (ids : List Int) :
    List α × Option String :=
  let results : List (Option α) := ids.map (fun id => (fetch id).toOption)
  let errors : List (Option String) :=
    ids.map (fun id => match fetch id with | .ok _ => none | .error e => some e)
  ((results.zip errors).filterMap
      (fun re =>
        match re with
        | (some a, none) => some a
        | _ => none),
    none)

/-- Embeds StoryApiService.FetchMultiple (internal/services/storyService.go). -/
def StoryApiService.FetchMultiple (fetch : Int → Except String Story)
    (ids : List Int) : List Story × Option String :=
  fetchMultiple fetch ids

/-- Embeds CommentApiService.FetchMultiple (internal/services/commentService.go
snapshot). -/
def CommentApiService.FetchMultiple (fetch : Int → Except String Comment)
    (ids : List Int) : List Comment × Option String :=
  fetchMultiple fetch ids

/-- Embeds JobApiService.FetchMultiple (internal/services snapshot). -/
def JobApiService.FetchMultiple (fetch : Int → Except String Job)
    (ids : List Int) : List Job × Option String :=
  fetchMultiple fetch ids

/-- Embeds AskApiService.FetchMultiple (internal/services/askService.go). -/
def AskApiService.FetchMultiple (fetch : Int → Except String Ask)
    (ids : List Int) : List Ask × Option String :=
  fetchMultiple fetch ids

/-- FetchMultiple returns exactly the successfully fetched records, in input
order, and a nil error. -/
theorem fetchMultiple_spec {α : Type} (fetch : Int → Except String α)
    (ids : List Int) :
    fetchMultiple fetch ids =
      (ids.filterMap (fun id => (fetch id).toOption), none) := by
  induction ids with
  | nil => rfl
  | cons i t ih =>
    simp only [fetchMultiple, List.map_cons, List.zip_cons_cons,
      List.filterMap_cons] at ih ⊢
    cases h : fetch i <;> simp_all [Except.toOption]

/-- Claim C8: for stories, comments and jobs alike, FetchMultiple returns a
nil error no matter how many per-id fetches fail; ids whose fetch errored are
dropped, and the returned slice holds exactly the successful records, in input
order, so its length is at most the input length. -/
theorem c8_fetchMultiple_drops_failures :
    (∀ (fetch : Int → Except String Story) (ids : List Int),
        (StoryApiService.FetchMultiple fetch ids).2 = none ∧
        (StoryApiService.FetchMultiple fetch ids).1 =
          ids.filterMap (fun id => (fetch id).toOption) ∧
        (StoryApiService.FetchMultiple fetch ids).1.length ≤ ids.length) ∧
    (∀ (fetch : Int → Except String Comment) (ids : List Int),
        (CommentApiService.FetchMultiple fetch ids).2 = none ∧
        (CommentApiService.FetchMultiple fetch ids).1 =
          ids.filterMap (fun id => (fetch id).toOption) ∧
        (CommentApiService.FetchMultiple fetch ids).1.length ≤ ids.length) ∧
    (∀ (fetch : Int → Except String Job) (ids : List Int),
        (JobApiService.FetchMultiple fetch ids).2 = none ∧
        (JobApiService.FetchMultiple fetch ids).1 =
          ids.filterMap (fun id => (fetch id).toOption) ∧
        (JobApiService.FetchMultiple fetch ids).1.length ≤ ids.length) := by
  refine ⟨fun fetch ids => ?_, fun fetch ids => ?_, fun fetch ids => ?_⟩ <;>
    [rw [StoryApiService.FetchMultiple, fetchMultiple_spec];
     rw [CommentApiService.FetchMultiple, fetchMultiple_spec];
     rw [JobApiService.FetchMultiple, fetchMultiple_spec]] <;>
    exact ⟨rfl, rfl, List.length_filterMap_le _ _⟩

/-! ## Scheduled ask sync (DataSyncService.syncAsks)

syncAsks fetches the ask id list, truncates it to its first 10 entries when it
is longer, fetches those ids through AskApiService.FetchMultiple, and stores
the fetched asks.  Only the truncated id list is ever fetched. -/

/-- Embeds the truncation step of DataSyncService.syncAsks:
`if len(ids) > 10 { ids = ids[:10] }`. -/
def syncAsksTruncate (ids : List Int) : List Int :=
  if ids.length > 10 then ids.take 10 else ids

/-- The ids syncAsks hands to FetchMultiple — the only ids fetched in that
cycle. -/
def syncAsksFetchedIDs (ids : List Int) : List Int :=
  syncAsksTruncate ids

/-- The asks syncAsks fetches and then hands to the store's batch write. -/
def syncAsksPersisted (fetch : Int → Except String Ask) (ids : List Int) :
    List Ask :=
  (AskApiService.FetchMultiple fetch (syncAsksTruncate ids)).1

/-- Claim C10: for an ask id list longer than 10 (with distinct ids, and a
source that returns each item under its own id), syncAsks fetches exactly the
first 10 ids, and every id past position 10 is neither fetched nor present
among the persisted asks. -/
theorem c10_syncAsks_truncates (fetch : Int → Except String Ask)
    (ids : List Int) (hlen : 10 < ids.length) (hnd : ids.Nodup)
    (hid : ∀ i a, fetch i = .ok a → a.ID = i) :
    syncAsksFetchedIDs ids = ids.take 10 ∧
    ∀ j (hj : j < ids.length), 10 ≤ j →
      ids.get ⟨j, hj⟩ ∉ syncAsksFetchedIDs ids ∧
      ∀ a ∈ syncAsksPersisted fetch ids, a.ID ≠ ids.get ⟨j, hj⟩ := by
  have htr : syncAsksTruncate ids = ids.take 10 := by
    simp [syncAsksTruncate, hlen]
  have hmem : ∀ j (hj : j < ids.length), 10 ≤ j → ids.get ⟨j, hj⟩ ∉ ids.take 10 := by
    intro j hj h10 hin
    obtain ⟨k, hk, hkeq⟩ := List.getElem_of_mem hin
    have hk10 : k < 10 := by
      have hk2 := hk
      simp [List.length_take] at hk2
      omega
    have hkl : k < ids.length := lt_of_lt_of_le hk10 (le_of_lt hlen)
    have hgets : ids[k] = ids[j] := by
      rw [List.getElem_take] at hkeq
      simpa using hkeq
    have hkj : k = j := (List.Nodup.getElem_inj_iff hnd).mp hgets
    omega
  refine ⟨by simp [syncAsksFetchedIDs, htr], ?_⟩
  intro j hj h10
  refine ⟨by simpa [syncAsksFetchedIDs, htr] using hmem j hj h10, ?_⟩
  intro a ha heq
  rw [syncAsksPersisted, AskApiService.FetchMultiple, fetchMultiple_spec, htr] at ha
  obtain ⟨i, hi, hia⟩ := List.mem_filterMap.mp ha
  have hok : fetch i = Except.ok a := by
    cases h : fetch i with
    | error e =>
      rw [h] at hia
      simp [Except.toOption] at hia
    | ok v =>
      rw [h] at hia
      simp [Except.toOption] at hia
      rw [hia]
  have hai : a.ID = i := hid i a hok
  have hcontra : ids.get ⟨j, hj⟩ ∈ ids.take 10 := by
    rw [← heq, hai]
    exact hi
  exact hmem j hj h10 hcontra

/-- Claim C10, witness: an 11-id list is truncated to its first 10 entries and
the 11th id is never fetched, checked with a fetch oracle that fails every id. -/
theorem c10_syncAsks_truncates_witness :
    syncAsksFetchedIDs [1, 2, 3, 4, 5, 6, 7, 8, 9, 10, 11] =
      [1, 2, 3, 4, 5, 6, 7, 8, 9, 10] ∧
    ∀ j (hj : j < ([1, 2, 3, 4, 5, 6, 7, 8, 9, 10, 11] : List Int).length),
      10 ≤ j →
      ([1, 2, 3, 4, 5, 6, 7, 8, 9, 10, 11] : List Int).get ⟨j, hj⟩ ∉
        syncAsksFetchedIDs [1, 2, 3, 4, 5, 6, 7, 8, 9, 10, 11] ∧
      ∀ a ∈ syncAsksPersisted (fun _ => .error ("e"))
          [1, 2, 3, 4, 5, 6, 7, 8, 9, 10, 11],
        a.ID ≠ ([1, 2, 3, 4, 5, 6, 7, 8, 9, 10, 11] : List Int).get ⟨j, hj⟩ :=
  c10_syncAsks_truncates (fun _ => .error ("e"))
    [1, 2, 3, 4, 5, 6, 7, 8, 9, 10, 11] (by decide) (by decide)
    (fun i a h => by simp at h)

/-! ## The update-sync cycle (DataSyncService.syncUpdates)

The cycle body after FetchUpdates is embedded over oracles: the Source
Gateway answers raw fetches (the outer Option is the call's error, the inner
Option the presence of a string "type" field), typed fetches per variant, and
profile fetches; a store oracle answers whether each class's batch upsert
succeeds; the Kafka bus oracle is the one above.  Goroutine fan-out over the
frontier is determinized as a left fold in frontier order, and the seven
concurrent save goroutines are run in their textual order — each unit only
appends to its own class under the shared mutex, so any interleaving yields
the same per-class multisets. -/

/-- The Source Gateway oracle for one cycle. -/
structure Gateway where
  raw : Int → Option (Option String)
  story : Int → Option Story
  ask : Int → Option Ask
  comment : Int → Option Comment
  job : Int → Option Job
  poll : Int → Option Poll
  pollopt : Int → Option PollOption
  user : String → Option User

/-- The two Redis keys the cycle touches: "ids" for items and "user_ids" for
profiles. -/
structure CacheState where
  items : Option (CacheVal Int)
  users : Option (CacheVal String)
deriving DecidableEq

/-- The per-class in-memory collections accumulated during the fan-out, each
id list appended in lockstep with its record list. -/
structure Collections where
  stories : List Story
  storiesIDs : List Int
  asks : List Ask
  asksIDs : List Int
  comments : List Comment
  commentsIDs : List Int
  jobs : List Job
  jobsIDs : List Int
  polls : List Poll
  pollsIDs : List Int
  pollOptions : List PollOption
  pollOptionsIDs : List Int
  users : List User
  userIDs : List String
deriving DecidableEq

/-- The empty collections the cycle starts from. -/
def Collections.empty : Collections :=
  ⟨[], [], [], [], [], [], [], [], [], [], [], [], [], []⟩

/-- Embeds one per-item unit of work in syncUpdates: consult the items cache
(log and stop on a cache error; count and stop on a hit), fetch the raw item,
read its "type" field, dispatch to the typed fetch of the same id, and append
the record and its id to the class's collection when the typed fetch succeeds
and the record is valid. -/
def processItem (g : Gateway) (c : CacheState) (acc : Collections) (id : Int) :
    Collections :=
  match IsItemInCache c.items id with
  | .error _ => acc
  | .ok true => acc
  | .ok false =>
    match g.raw id with
    | none => acc
    | some none => acc
    | some (some itemType) =>
      if itemType = "story" then
        match g.story id with
        | some story =>
          if story.IsValid then
            { acc with stories := acc.stories ++ [story],
                       storiesIDs := acc.storiesIDs ++ [story.ID] }
          else acc
        | none => acc
      else if itemType = "ask" then
        match g.ask id with
        | some ask =>
          if ask.IsValid then
            { acc with asks := acc.asks ++ [ask],
                       asksIDs := acc.asksIDs ++ [ask.ID] }
          else acc
        | none => acc
      else if itemType = "comment" then
        match g.comment id with
        | some comment =>
          if comment.IsValid then
            { acc with comments := acc.comments ++ [comment],
                       commentsIDs := acc.commentsIDs ++ [comment.ID] }
          else acc
        | none => acc
      else if itemType = "job" then
        match g.job id with
        | some job =>
          if job.IsValid then
            { acc with jobs := acc.jobs ++ [job],
                       jobsIDs := acc.jobsIDs ++ [job.ID] }
          else acc
        | none => acc
      else if itemType = "poll" then
        match g.poll id with
        | some poll =>
          if poll.IsValid then
            { acc with polls := acc.polls ++ [poll],
                       pollsIDs := acc.pollsIDs ++ [poll.ID] }
          else acc
        | none => acc
      else if itemType = "pollopt" then
        match g.pollopt id with
        | some pollOption =>
          if pollOption.IsValid then
            { acc with pollOptions := acc.pollOptions ++ [pollOption],
                       pollOptionsIDs := acc.pollOptionsIDs ++ [pollOption.ID] }
          else acc
        | none => acc
      else acc

/-- Embeds one per-username unit of work in syncUpdates: consult the profiles
cache, fetch the user by name, and append the user and its username when the
fetch succeeds and the user is valid. -/
def processUser (g : Gateway) (c : CacheState) (acc : Collections)
    (name : String) : Collections :=
  match IsUserIDInCache c.users name with
  | .error _ => acc
  | .ok true => acc
  | .ok false =>
    match g.user name with
    | none => acc
    | some user =>
      if user.IsValid then
        { acc with users := acc.users ++ [user],
                   userIDs := acc.userIDs ++ [user.Username] }
      else acc

/-- The fan-out phase of syncUpdates: every frontier id, then every frontier
username, each as its own unit of work, aggregated at the wg.Wait barrier. -/
def collect (g : Gateway) (c : CacheState) (upd : Update) : Collections :=
  upd.Profiles.foldl (processUser g c) (upd.IDs.foldl (processItem g c) Collections.empty)

/-- The Durable Store oracle: whether each class's batch write succeeds. -/
structure StoreOracle where
  stories : List Story → Bool
  asks : List Ask → Bool
  comments : List Comment → Bool
  jobs : List Job → Bool
  polls : List Poll → Bool
  pollOptions : List PollOption → Bool
  users : List User → Bool

/-- The observable effects of one cycle's save phase: the batch each class
wrote to the store (none when that class performed no store write), and the
published message batches per topic, in publication order. -/
structure CycleEvents where
  storedStories : Option (List Story)
  storedAsks : Option (List Ask)
  storedComments : Option (List Comment)
  storedJobs : Option (List Job)
  storedPolls : Option (List Poll)
  storedPollOptions : Option (List PollOption)
  storedUsers : Option (List User)
  pubs : List (String × List String)
deriving DecidableEq

/-- The no-effects record a cycle starts from. -/
def CycleEvents.start : CycleEvents :=
  ⟨.none, .none, .none, .none, .none, .none, .none, []⟩

/-- Embeds the stories save goroutine: skip an empty class; on store success
record the write and publish the id batch — a producer failure exits the
process (none); on publish success mark the ids in the items cache. -/
def saveStories (so : StoreOracle) (bus : Bus) (col : Collections) :
    CacheState × CycleEvents → Option (CacheState × CycleEvents)
  | (c, ev) =>
    if col.stories.isEmpty then some (c, ev)
    else if so.stories col.stories then
      let ev2 := { ev with storedStories := some col.stories }
      match NewItemProducer bus ("StoriesTopic") col.storiesIDs with
      | .retErr _ => some (c, ev2)
      | .fatalExit => none
      | .retOk =>
        some ({ c with items := CacheID c.items col.storiesIDs },
          { ev2 with
            pubs := ev2.pubs ++
              [("StoriesTopic", col.storiesIDs.map (fun i => toString i))] })
    else some (c, ev)

/-- Embeds the asks save goroutine (same shape as saveStories). -/
def saveAsks (so : StoreOracle) (bus : Bus) (col : Collections) :
    CacheState × CycleEvents → Option (CacheState × CycleEvents)
  | (c, ev) =>
    if col.asks.isEmpty then some (c, ev)
    else if so.asks col.asks then
      let ev2 := { ev with storedAsks := some col.asks }
      match NewItemProducer bus ("AsksTopic") col.asksIDs with
      | .retErr _ => some (c, ev2)
      | .fatalExit => none
      | .retOk =>
        some ({ c with items := CacheID c.items col.asksIDs },
          { ev2 with
            pubs := ev2.pubs ++
              [("AsksTopic", col.asksIDs.map (fun i => toString i))] })
    else some (c, ev)

/-- Embeds the comments save goroutine (same shape as saveStories). -/
def saveComments (so : StoreOracle) (bus : Bus) (col : Collections) :
    CacheState × CycleEvents → Option (CacheState × CycleEvents)
  | (c, ev) =>
    if col.comments.isEmpty then some (c, ev)
    else if so.comments col.comments then
      let ev2 := { ev with storedComments := some col.comments }
      match NewItemProducer bus ("CommentsTopic") col.commentsIDs with
      | .retErr _ => some (c, ev2)
      | .fatalExit => none
      | .retOk =>
        some ({ c with items := CacheID c.items col.commentsIDs },
          { ev2 with
            pubs := ev2.pubs ++
              [("CommentsTopic", col.commentsIDs.map (fun i => toString i))] })
    else some (c, ev)

/-- Embeds the jobs save goroutine (same shape as saveStories). -/
def saveJobs (so : StoreOracle) (bus : Bus) (col : Collections) :
    CacheState × CycleEvents → Option (CacheState × CycleEvents)
  | (c, ev) =>
    if col.jobs.isEmpty then some (c, ev)
    else if so.jobs col.jobs then
      let ev2 := { ev with storedJobs := some col.jobs }
      match NewItemProducer bus ("JobsTopic") col.jobsIDs with
      | .retErr _ => some (c, ev2)
      | .fatalExit => none
      | .retOk =>
        some ({ c with items := CacheID c.items col.jobsIDs },
          { ev2 with
            pubs := ev2.pubs ++
              [("JobsTopic", col.jobsIDs.map (fun i => toString i))] })
    else some (c, ev)

/-- Embeds the polls save goroutine (same shape as saveStories). -/
def savePolls (so : StoreOracle) (bus : Bus) (col : Collections) :
    CacheState × CycleEvents → Option (CacheState × CycleEvents)
  | (c, ev) =>
    if col.polls.isEmpty then some (c, ev)
    else if so.polls col.polls then
      let ev2 := { ev with storedPolls := some col.polls }
      match NewItemProducer bus ("PollsTopic") col.pollsIDs with
      | .retErr _ => some (c, ev2)
      | .fatalExit => none
      | .retOk =>
        some ({ c with items := CacheID c.items col.pollsIDs },
          { ev2 with
            pubs := ev2.pubs ++
              [("PollsTopic", col.pollsIDs.map (fun i => toString i))] })
    else some (c, ev)

/-- Embeds the poll-options save goroutine (same shape as saveStories). -/
def savePollOptions (so : StoreOracle) (bus : Bus) (col : Collections) :
    CacheState × CycleEvents → Option (CacheState × CycleEvents)
  | (c, ev) =>
    if col.pollOptions.isEmpty then some (c, ev)
    else if so.pollOptions col.pollOptions then
      let ev2 := { ev with storedPollOptions := some col.pollOptions }
      match NewItemProducer bus ("PollOptionsTopic") col.pollOptionsIDs with
      | .retErr _ => some (c, ev2)
      | .fatalExit => none
      | .retOk =>
        some ({ c with items := CacheID c.items col.pollOptionsIDs },
          { ev2 with
            pubs := ev2.pubs ++
              [("PollOptionsTopic",
                col.pollOptionsIDs.map (fun i => toString i))] })
    else some (c, ev)

/-- Embeds the users save goroutine: as the others, with the username producer
and the profiles cache key. -/
def saveUsers (so : StoreOracle) (bus : Bus) (col : Collections) :
    CacheState × CycleEvents → Option (CacheState × CycleEvents)
  | (c, ev) =>
    if col.users.isEmpty then some (c, ev)
    else if so.users col.users then
      let ev2 := { ev with storedUsers := some col.users }
      match NewUserIDProducer bus ("UsersTopic") col.userIDs with
      | .retErr _ => some (c, ev2)
      | .fatalExit => none
      | .retOk =>
        some ({ c with users := CacheUserIDs c.users col.userIDs },
          { ev2 with pubs := ev2.pubs ++ [("UsersTopic", col.userIDs)] })
    else some (c, ev)

/-- The outcome of one cycle: a process exit out of a save goroutine's
producer, or completion with the final cache state and the cycle's effects. -/
inductive SyncOutcome where
  | fatal
  | done (cache : CacheState) (events : CycleEvents)
deriving DecidableEq

/-- Embeds DataSyncService.syncUpdates after the frontier fetch: return at
once when the frontier's id list is empty (the profile list is not consulted);
otherwise fan out over ids and usernames, then run the per-class save
goroutines. -/
def syncUpdates (g : Gateway) (so : StoreOracle) (bus : Bus) (c : CacheState)
    (upd : Update) : SyncOutcome :=
  if upd.IDs.isEmpty then .done c CycleEvents.start
  else
    let col := collect g c upd
    match (saveStories so bus col (c, CycleEvents.start)).bind
        (saveAsks so bus col) |>.bind (saveComments so bus col) |>.bind
        (saveJobs so bus col) |>.bind (savePolls so bus col) |>.bind
        (savePollOptions so bus col) |>.bind (saveUsers so bus col) with
    | none => .fatal
    | some (c2, ev) => .done c2 ev

/-! ## Shared concrete oracles for cycle-level results -/

/-- A store oracle whose every batch write succeeds. -/
def allOkStore : StoreOracle :=
  ⟨fun _ => true, fun _ => true, fun _ => true, fun _ => true, fun _ => true,
   fun _ => true, fun _ => true⟩

/-- A bus oracle whose every dial, write and close succeeds. -/
def allOkBus : Bus := ⟨fun _ => true, fun _ _ => true, fun _ => true⟩

/-- A cold cache: neither Redis key exists yet. -/
def emptyCache : CacheState := ⟨none, none⟩

/-! ## Claim C2: the round-trip scenario -/

/-- The Story decoded from the round-trip payload
(type "story", id 42, title "X", by "alice", time 1000): json decoding puts
the wire tag "story" in the Type field. -/
def c2Story : Story := ⟨42, "story", "X", "", 0, "alice", 1000, 0⟩

/-- The same payload with an empty title. -/
def c2StoryNoTitle : Story := ⟨42, "story", "", "", 0, "alice", 1000, 0⟩

/-- The round-trip frontier: record ids [42], usernames ["alice"]. -/
def c2Update : Update := ⟨[42], ["alice"]⟩

/-- The gateway of the round-trip scenario: the raw fetch of id 42 carries the
type field "story" and the typed fetch returns the equivalent Story. -/
def c2Gateway : Gateway where
  raw := fun id => if id = 42 then some (some ("story")) else none
  story := fun id => if id = 42 then some c2Story else none
  ask := fun _ => none
  comment := fun _ => none
  job := fun _ => none
  poll := fun _ => none
  pollopt := fun _ => none
  user := fun _ => none

/-- The empty-title variant of the round-trip gateway. -/
def c2GatewayNoTitle : Gateway where
  raw := fun id => if id = 42 then some (some ("story")) else none
  story := fun id => if id = 42 then some c2StoryNoTitle else none
  ask := fun _ => none
  comment := fun _ => none
  job := fun _ => none
  poll := fun _ => none
  pollopt := fun _ => none
  user := fun _ => none

/-- Claim C2: in the round-trip scenario the cycle persists nothing, publishes
nothing and marks nothing — the decoded Story carries the wire tag "story"
while Story.IsValid demands "Story", so the record fails validation and the
story branch discards it; the cache and the effect record come back unchanged.
(The empty-title half of the scenario behaves the same, as the claim says.) -/
theorem c2_roundtrip_not_persisted :
    Story.IsValid c2Story = false ∧
    syncUpdates c2Gateway allOkStore allOkBus emptyCache c2Update =
      .done emptyCache CycleEvents.start ∧
    syncUpdates c2GatewayNoTitle allOkStore allOkBus emptyCache c2Update =
      .done emptyCache CycleEvents.start := by
  decide

/-! ## Claim C4: the second cycle over an unchanged frontier -/

/-- A story that passes Story.IsValid (tag "Story"), reachable from the raw
tag "story". -/
def c4Story : Story := ⟨1, "Story", "T", "", 0, "a", 1, 0⟩

/-- A comment that passes Comment.IsValid (tag "Comment"), reachable from the
raw tag "comment". -/
def c4Comment : Comment := ⟨2, "Comment", "t", "a", 0, [], 1⟩

/-- A two-class frontier: one story id and one comment id. -/
def c4Update : Update := ⟨[1, 2], []⟩

/-- A gateway on which both frontier ids resolve to valid records. -/
def c4Gateway : Gateway where
  raw := fun id =>
    if id = 1 then some (some ("story"))
    else if id = 2 then some (some ("comment")) else none
  story := fun id => if id = 1 then some c4Story else none
  ask := fun _ => none
  comment := fun id => if id = 2 then some c4Comment else none
  job := fun _ => none
  poll := fun _ => none
  pollopt := fun _ => none
  user := fun _ => none

/-- The cache after the first cycle: the comments goroutine's CacheID
overwrote the items key last, so only [2] survives. -/
def c4CacheAfter1 : CacheState := ⟨some (.decoded [2]), none⟩

/-- The first cycle's effects: both classes stored, published and
cache-marked. -/
def c4Ev1 : CycleEvents :=
  { CycleEvents.start with
    storedStories := some [c4Story]
    storedComments := some [c4Comment]
    pubs := [("StoriesTopic", ["1"]), ("CommentsTopic", ["2"])] }

/-- The second cycle's effects: the story is stored and published again. -/
def c4Ev2 : CycleEvents :=
  { CycleEvents.start with
    storedStories := some [c4Story]
    pubs := [("StoriesTopic", ["1"])] }

/-- Claim C4: a fully successful cycle over the frontier {[1, 2], []} —
both classes stored, published and cache-marked — is followed, on the same
unchanged frontier, by a second cycle that stores and publishes the story
batch again: the comments goroutine's cache mark overwrote the story marks,
so id 1 misses the dedup check and is refetched, restored and republished. -/
theorem c4_second_cycle_repeats_work :
    syncUpdates c4Gateway allOkStore allOkBus emptyCache c4Update =
      .done c4CacheAfter1 c4Ev1 ∧
    syncUpdates c4Gateway allOkStore allOkBus c4CacheAfter1 c4Update =
      .done ⟨some (.decoded [1]), none⟩ c4Ev2 ∧
    c4Ev2.storedStories = some [c4Story] ∧
    c4Ev2.pubs = [("StoriesTopic", ["1"])] := by
  decide

/-! ## Claim C7: per-username processing -/

/-- The outcome of one username's unit of work in isolation: nothing on a
cache error or a cache hit, nothing on a failed fetch or an invalid profile,
otherwise the fetched user. -/
def profileOutcome (g : Gateway) (c : CacheState) (name : String) :
    Option User :=
  match IsUserIDInCache c.users name with
  | .error _ => none
  | .ok true => none
  | .ok false =>
    match g.user name with
    | none => none
    | some user => if user.IsValid then some user else none

/-- A per-item unit of work never touches the profile collection. -/
theorem processItem_users_unchanged (g : Gateway) (c : CacheState)
    (acc : Collections) (id : Int) :
    (processItem g c acc id).users = acc.users ∧
    (processItem g c acc id).userIDs = acc.userIDs := by
  unfold processItem
  repeat' split
  all_goals exact ⟨rfl, rfl⟩

/-- Folding the per-item units over any id list leaves the profile collection
unchanged. -/
theorem foldl_processItem_users_unchanged (g : Gateway) (c : CacheState)
    (ids : List Int) (acc : Collections) :
    (ids.foldl (processItem g c) acc).users = acc.users ∧
    (ids.foldl (processItem g c) acc).userIDs = acc.userIDs := by
  induction ids generalizing acc with
  | nil => exact ⟨rfl, rfl⟩
  | cons i t ih =>
    simp only [List.foldl_cons]
    rcases processItem_users_unchanged g c acc i with ⟨h1, h2⟩
    rcases ih (processItem g c acc i) with ⟨ih1, ih2⟩
    exact ⟨ih1.trans h1, ih2.trans h2⟩

/-- One per-username unit of work appends exactly its own outcome. -/
theorem processUser_appends (g : Gateway) (c : CacheState) (acc : Collections)
    (name : String) :
    (processUser g c acc name).users =
      acc.users ++ (profileOutcome g c name).toList ∧
    (processUser g c acc name).userIDs =
      acc.userIDs ++ ((profileOutcome g c name).toList.map User.Username) := by
  unfold processUser profileOutcome
  repeat' split
  all_goals simp_all

/-- Folding the per-username units appends the outcomes pointwise: every
username contributes independently of the others. -/
theorem foldl_processUser_appends (g : Gateway) (c : CacheState)
    (names : List String) (acc : Collections) :
    (names.foldl (processUser g c) acc).users =
      acc.users ++ names.filterMap (profileOutcome g c) ∧
    (names.foldl (processUser g c) acc).userIDs =
      acc.userIDs ++
        (names.filterMap (profileOutcome g c)).map User.Username := by
  induction names generalizing acc with
  | nil => simp
  | cons n t ih =>
    simp only [List.foldl_cons, List.filterMap_cons]
    rcases processUser_appends g c acc n with ⟨h1, h2⟩
    rcases ih (processUser g c acc n) with ⟨ih1, ih2⟩
    cases h : profileOutcome g c n <;> simp_all

/-- Claim C7, amended: whenever the frontier's record-id list is non-empty,
the cycle's fan-out processes each username as its own unit of work —
dedup-cache check in the profiles namespace, profile fetch, validation,
append — so the profile collection is exactly the list of per-username
outcomes in frontier order; when the record-id list is empty, the cycle
returns before consulting the username list and no username is processed. -/
theorem c7_usernames_each_processed :
    (∀ (g : Gateway) (c : CacheState) (upd : Update),
        (collect g c upd).users =
          upd.Profiles.filterMap (profileOutcome g c) ∧
        (collect g c upd).userIDs =
          (upd.Profiles.filterMap (profileOutcome g c)).map User.Username) ∧
    (∀ (g : Gateway) (so : StoreOracle) (bus : Bus) (c : CacheState)
        (names : List String),
        syncUpdates g so bus c ⟨[], names⟩ = .done c CycleEvents.start) := by
  constructor
  · intro g c upd
    unfold collect
    rcases foldl_processUser_appends g c upd.Profiles
        (upd.IDs.foldl (processItem g c) Collections.empty) with ⟨h1, h2⟩
    rcases foldl_processItem_users_unchanged g c upd.IDs Collections.empty
      with ⟨hu1, hu2⟩
    rw [h1, h2, hu1, hu2]
    exact ⟨rfl, rfl⟩
  · intro g so bus c names
    rfl

/-- A profile that passes User.IsValid. -/
def c7User : User := ⟨0, "alice", 1, "bio", 1, []⟩

/-- A gateway on which the frontier username "alice" would resolve to a valid
profile; no record ids resolve at all. -/
def c7Gateway : Gateway where
  raw := fun _ => none
  story := fun _ => none
  ask := fun _ => none
  comment := fun _ => none
  job := fun _ => none
  poll := fun _ => none
  pollopt := fun _ => none
  user := fun name => if name = "alice" then some c7User else none

/-- Claim C7, counterexample: with the frontier {recordIDs: [], usernames:
["alice"]}, the cycle returns at once with no effects — "alice" is never
cache-checked, fetched, validated or appended — even though its unit of work
would have produced a valid profile. -/
theorem c7_counterexample :
    profileOutcome c7Gateway emptyCache ("alice") = some c7User ∧
    syncUpdates c7Gateway allOkStore allOkBus emptyCache ⟨[], ["alice"]⟩ =
      .done emptyCache CycleEvents.start := by
  decide

end HN
